import Mathlib

/-!
Verification development for the express-jobly repository.

The development shallowly embeds the repository's data layer:
`helpers/sql.js` (`sqlForPartialUpdate`), `models/company.js`
(`Company.create`, `Company.filterBy`, `Company.get`) and `models/job.js`
(`Job.create`, `Job.filterBy`, `Job.update`).  The database is modelled as an
explicit state (lists of rows) and each repository method becomes a pure
function from that state; fallible calls return `Except`.  SQL semantics used
by the code (ILIKE pattern matching, BETWEEN / comparison behaviour on NULL,
column validation of an UPDATE statement) are modelled directly.

JavaScript objects are embedded as association lists in iteration order, and
JavaScript values (needed because `sqlForPartialUpdate` accepts arbitrary
values) as the inductive `JSValue`.  JS falsiness of `""`, `0`, `null` and
`undefined` is modelled exactly where the source relies on it (`x || y`
defaulting).
-/

/-- A JavaScript value, as far as the data layer needs them.  Numbers are
modelled as rationals (exact for every literal the repository handles);
objects are association lists of fields in iteration order. -/
inductive JSValue where
  | undef : JSValue
  | null : JSValue
  | bool (b : Bool) : JSValue
  | num (q : Rat) : JSValue
  | str (s : String) : JSValue
  | obj (fields : List (String × JSValue)) : JSValue

/-- Errors surfaced by the data layer: `badRequest` and `notFound` model the
repository's `BadRequestError` / `NotFoundError`; `typeError` models a raw
JavaScript `TypeError`; `storage` models an unclassified error raised by the
SQL engine itself. -/
inductive SqlError where
  | badRequest (msg : String) : SqlError
  | notFound (msg : String) : SqlError
  | typeError (msg : String) : SqlError
  | storage (msg : String) : SqlError
deriving DecidableEq

/-- `Object.keys` of a JavaScript value: throws `TypeError` on `null` and
`undefined`, returns `[]` for booleans and numbers, index strings for a
string, and the field names (in iteration order) for an object. -/
def objectKeys : JSValue → Except SqlError (List String)
  | .undef => .error (.typeError "Cannot convert undefined or null to object")
  | .null => .error (.typeError "Cannot convert undefined or null to object")
  | .bool _ => .ok []
  | .num _ => .ok []
  | .str s => .ok ((List.range s.length).map (fun i => toString i))
  | .obj fields => .ok (fields.map Prod.fst)

/-- `Object.values` of a JavaScript value, mirroring `objectKeys`. -/
def objectValues : JSValue → Except SqlError (List JSValue)
  | .undef => .error (.typeError "Cannot convert undefined or null to object")
  | .null => .error (.typeError "Cannot convert undefined or null to object")
  | .bool _ => .ok []
  | .num _ => .ok []
  | .str s => .ok (s.data.map (fun c => .str (String.singleton c)))
  | .obj fields => .ok (fields.map Prod.snd)

/-- First-match lookup in an association list (a JS object property read). -/
def jsLookup : List (String × String) → String → Option String
  | [], _ => none
  | (k, v) :: rest, key => if k = key then some v else jsLookup rest key

/-- The column chosen for a data key by `sqlForPartialUpdate`:
`jsToSql[colName] || colName`.  A missing entry and an empty-string entry are
both falsy in JavaScript, so either falls back to the key itself. -/
def colFor (jsToSql : List (String × String)) (k : String) : String :=
  match jsLookup jsToSql k with
  | some c => if c = "" then k else c
  | none => k

/-- The clause list built by `keys.map((colName, idx) => ...)` in
`sqlForPartialUpdate`, carrying the running 0-based index. -/
def buildCols (jsToSql : List (String × String)) : List String → Nat → List String
  | [], _ => []
  | k :: ks, idx =>
      ("\"" ++ colFor jsToSql k ++ "\"=$" ++ toString (idx + 1)) :: buildCols jsToSql ks (idx + 1)

/-- Result record of `sqlForPartialUpdate`. -/
structure SqlUpdate where
  setCols : String
  values : List JSValue

/-- Embedding of `sqlForPartialUpdate(dataToUpdate, jsToSql)` from
`helpers/sql.js`: take `Object.keys` of the data, throw `BadRequestError("No
data")` when there are none, otherwise build the `"col"=$N` clause list and
return it joined with `", "` together with `Object.values` of the data. -/
def sqlForPartialUpdate (dataToUpdate : JSValue) (jsToSql : List (String × String)) :
    Except SqlError SqlUpdate :=
  match objectKeys dataToUpdate with
  | .error e => .error e
  | .ok keys =>
    if keys.length = 0 then .error (.badRequest "No data")
    else
      match objectValues dataToUpdate with
      | .error e => .error e
      | .ok vals => .ok ⟨String.intercalate ", " (buildCols jsToSql keys 0), vals⟩

/-- One step of PostgreSQL `LIKE` pattern matching on character lists, with a
fuel argument for structural termination: `%` matches any sequence, `_` any
single character, a backslash escapes the following pattern character.  The
fuel is always chosen larger than the combined length of pattern and text, so
it never runs out. -/
def likeAux : Nat → List Char → List Char → Bool
  | 0, _, _ => false
  | Nat.succ f, ps, cs =>
    match ps, cs with
    | [], [] => true
    | [], _ :: _ => false
    | '%' :: ps', [] => likeAux f ps' []
    | '%' :: ps', c :: cs' => likeAux f ps' (c :: cs') || likeAux f ('%' :: ps') cs'
    | '_' :: ps', [] => false
    | '_' :: ps', _ :: cs' => likeAux f ps' cs'
    | '\\' :: _ :: _, [] => false
    | '\\' :: p :: ps', c :: cs' => p == c && likeAux f ps' cs'
    | _ :: _, [] => false
    | p :: ps', c :: cs' => p == c && likeAux f ps' cs'

/-- A string's characters, lower-cased (the normalization ILIKE applies). -/
def lowerData (s : String) : List Char := s.data.map Char.toLower

/-- PostgreSQL `ILIKE`: case-insensitive `LIKE`, modelled by lower-casing both
sides before matching. -/
def ilike (pattern text : String) : Bool :=
  likeAux ((lowerData pattern).length + (lowerData text).length + 1)
    (lowerData pattern) (lowerData text)

/-- `sub` occurs contiguously at the head of the second list. -/
def listPrefixOf : List Char → List Char → Bool
  | [], _ => true
  | _ :: _, [] => false
  | a :: as, b :: bs => a == b && listPrefixOf as bs

/-- `sub` occurs contiguously somewhere in the second list. -/
def containsSub (sub : List Char) : List Char → Bool
  | [] => listPrefixOf sub []
  | c :: cs => listPrefixOf sub (c :: cs) || containsSub sub cs

/-- Case-insensitive literal substring containment: the specification's
reading of the `title` / `name` filters ("substring, case-insensitive"). -/
def strContainsCI (s sub : String) : Bool :=
  containsSub (lowerData sub) (lowerData s)

/-! ## Database model -/

/-- A row of the `companies` table (and equally a company record as returned
by the repository, whose SELECTs alias the columns one-to-one). -/
structure CompanyRow where
  handle : String
  name : String
  description : String
  numEmployees : Option Int
  logoUrl : Option String
deriving DecidableEq

/-- A row of the `jobs` table. -/
structure JobRow where
  id : Int
  title : String
  salary : Option Int
  equity : Option Rat
  companyHandle : String
deriving DecidableEq

/-- The database state: both tables, plus the next value of the `jobs.id`
sequence.  Engine-level CHECK and foreign-key constraints are not modelled;
no theorem below depends on them. -/
structure DBState where
  companies : List CompanyRow
  jobs : List JobRow
  nextJobId : Int
deriving DecidableEq

/-- SQL `x BETWEEN lo AND hi` on a nullable integer column: NULL satisfies no
comparison, so a NULL row is filtered out. -/
def betweenE : Option Int → Int → Int → Bool
  | none, _, _ => false
  | some e, lo, hi => decide (lo ≤ e) && decide (e ≤ hi)

/-- SQL `salary >= m` on the nullable `salary` column (NULL never passes). -/
def salaryAtLeast : Option Int → Int → Bool
  | none, _ => false
  | some s, m => decide (m ≤ s)

/-- SQL `equity > 0` on the nullable `equity` column (NULL never passes). -/
def equityPos : Option Rat → Bool
  | none => false
  | some q => decide (0 < q)

/-! ## Company repository -/

/-- The criteria object accepted by `Company.filterBy`; `none` models an
absent property. -/
structure CompanyTerm where
  name : Option String
  minEmployees : Option Int
  maxEmployees : Option Int

/-- JS truthiness of an optional string: absent and `""` are falsy. -/
def truthyStr : Option String → Bool
  | some s => decide (s ≠ "")
  | none => false

/-- JS truthiness of an optional number: absent and `0` are falsy. -/
def truthyNum : Option Int → Bool
  | some n => decide (n ≠ 0)
  | none => false

/-- `term.minEmployees || 0` in `Company.filterBy`. -/
def effMinEmployees (t : CompanyTerm) : Int :=
  match t.minEmployees with
  | some n => if n = 0 then 0 else n
  | none => 0

/-- `term.maxEmployees || 10000000` in `Company.filterBy`: an absent or zero
(falsy) bound is replaced by the fixed constant. -/
def effMaxEmployees (t : CompanyTerm) : Int :=
  match t.maxEmployees with
  | some n => if n = 0 then 10000000 else n
  | none => 10000000

/-- The ILIKE pattern `'%' + filters.name + '%'`; only read in branches where
`term.name` is truthy, so the `getD` placeholder is never the value used. -/
def namePattern (t : CompanyTerm) : String := "%" ++ t.name.getD "" ++ "%"

/-- Embedding of `Company.create` (`models/company.js`): duplicate-handle
check, then INSERT returning the stored record. -/
def Company.create (f : CompanyRow) (db : DBState) : Except SqlError (CompanyRow × DBState) :=
  if db.companies.any (fun c => c.handle = f.handle) then
    .error (.badRequest ("Duplicate company: " ++ f.handle))
  else
    .ok (f, { db with companies := db.companies ++ [f] })

/-- Embedding of `Company.filterBy` (`models/company.js`): defaulted bounds,
min>max check, then one of three query shapes chosen on the raw criteria's
truthiness: name with employee range, name only, or employee range only. -/
def Company.filterBy (term : CompanyTerm) (db : DBState) : Except SqlError (List CompanyRow) :=
  if effMinEmployees term > effMaxEmployees term then
    .error (.badRequest "Min employees cannot be greater than max employees.")
  else if (truthyStr term.name && truthyNum term.maxEmployees) ||
      (truthyStr term.name && truthyNum term.minEmployees) then
    .ok (db.companies.filter (fun c =>
      ilike (namePattern term) c.name &&
      betweenE c.numEmployees (effMinEmployees term) (effMaxEmployees term)))
  else if truthyStr term.name then
    .ok (db.companies.filter (fun c => ilike (namePattern term) c.name))
  else
    .ok (db.companies.filter (fun c =>
      betweenE c.numEmployees (effMinEmployees term) (effMaxEmployees term)))

/-- A row of the LEFT JOIN issued by `Company.get`: the company's columns
together with the (nullable, because of the outer join) job columns the query
selects. -/
structure CompanyJobRow where
  handle : String
  name : String
  description : String
  numEmployees : Option Int
  logoUrl : Option String
  jobId : Option Int
  jobTitle : Option String
  jobSalary : Option Int
  jobEquity : Option Rat
deriving DecidableEq

/-- The LEFT JOIN rows contributed by one company: one row per job whose
`company_handle` matches, or a single row with NULL job columns when the
company has no jobs. -/
def companyJobRows (db : DBState) (c : CompanyRow) : List CompanyJobRow :=
  match db.jobs.filter (fun j => j.companyHandle = c.handle) with
  | [] => [⟨c.handle, c.name, c.description, c.numEmployees, c.logoUrl, none, none, none, none⟩]
  | js => js.map (fun j =>
      ⟨c.handle, c.name, c.description, c.numEmployees, c.logoUrl,
        some j.id, some j.title, j.salary, j.equity⟩)

/-- Embedding of `Company.get` (`models/company.js`): an existence check that
throws `NotFoundError`, then the LEFT JOIN query, whose raw row list is
returned as-is (`companyRes.rows`). -/
def Company.get (h : String) (db : DBState) : Except SqlError (List CompanyJobRow) :=
  if db.companies.any (fun c => c.handle = h) then
    .ok ((db.companies.filter (fun c => c.handle = h)).flatMap (companyJobRows db))
  else
    .error (.notFound ("No company: " ++ h))

/-! ## Job repository -/

/-- The fields `Job.create` destructures from its argument, and equally the
record shape it returns (`RETURNING title, salary, equity, company_handle`):
note there is no `id` field. -/
structure JobData where
  title : String
  salary : Option Int
  equity : Option Rat
  companyHandle : String
deriving DecidableEq

/-- Embedding of `Job.create` (`models/job.js`): referenced-company check
throwing `BadRequestError`, then INSERT returning the stored record without
the generated id. -/
def Job.create (f : JobData) (db : DBState) : Except SqlError (JobData × DBState) :=
  if db.companies.any (fun c => c.handle = f.companyHandle) then
    .ok (⟨f.title, f.salary, f.equity, f.companyHandle⟩,
      { db with
        jobs := db.jobs ++ [⟨db.nextJobId, f.title, f.salary, f.equity, f.companyHandle⟩],
        nextJobId := db.nextJobId + 1 })
  else
    .error (.badRequest ("Company does not exist: " ++ f.companyHandle))

/-- The criteria object accepted by `Job.filterBy`. -/
structure JobTerm where
  title : Option String
  minSalary : Option Int
  hasEquity : Option Bool

/-- `term.minSalary || 0` in `Job.filterBy`. -/
def effMinSalary (t : JobTerm) : Int :=
  match t.minSalary with
  | some n => if n = 0 then 0 else n
  | none => 0

/-- The ILIKE pattern `'%' + filters.title + '%'`; only read in branches where
`term.title` is truthy. -/
def titlePattern (t : JobTerm) : String := "%" ++ t.title.getD "" ++ "%"

/-- JS truthiness of `term.title`. -/
def truthyTitle (t : JobTerm) : Bool :=
  match t.title with
  | some s => decide (s ≠ "")
  | none => false

/-- `Boolean(term.hasEquity) || false` in `Job.filterBy`. -/
def hasEquityFlag (t : JobTerm) : Bool :=
  decide (t.hasEquity = some true)

/-- Embedding of `Job.filterBy` (`models/job.js`): four query shapes covering
the title-by-hasEquity combinations, every one of them conjoining
`salary >= $minSalary`. -/
def Job.filterBy (term : JobTerm) (db : DBState) : List JobRow :=
  if truthyTitle term && hasEquityFlag term then
    db.jobs.filter (fun j =>
      ilike (titlePattern term) j.title && equityPos j.equity &&
      salaryAtLeast j.salary (effMinSalary term))
  else if truthyTitle term then
    db.jobs.filter (fun j =>
      ilike (titlePattern term) j.title && salaryAtLeast j.salary (effMinSalary term))
  else if hasEquityFlag term then
    db.jobs.filter (fun j =>
      equityPos j.equity && salaryAtLeast j.salary (effMinSalary term))
  else
    db.jobs.filter (fun j => salaryAtLeast j.salary (effMinSalary term))

/-! ## Job.update and the storage layer's handling of its generated SQL -/

/-- Digits-only decimal parse, `none` on any non-digit. -/
def digitsToNat (cs : List Char) : Option Nat :=
  cs.foldl
    (fun acc c =>
      match acc with
      | none => none
      | some n => if c.isDigit then some (n * 10 + (c.toNat - 48)) else none)
    (some 0)

/-- PostgreSQL's parse of a text parameter bound to a numeric column:
optional sign, digits, optional fractional digits. -/
def parseDec (s : String) : Option Rat :=
  let signed : Bool × List Char :=
    match s.data with
    | '-' :: rest => (true, rest)
    | rest => (false, rest)
  let body := signed.2
  let intPart := body.takeWhile (fun c => c ≠ '.')
  let rest := body.dropWhile (fun c => c ≠ '.')
  let fracPart : Option (List Char) :=
    match rest with
    | [] => some []
    | _ :: fp => some fp
  match fracPart with
  | none => none
  | some fp =>
    if intPart.isEmpty && fp.isEmpty then none
    else
      match digitsToNat intPart, digitsToNat fp with
      | some i, some f =>
        let q : Rat := (i : Rat) + (f : Rat) / ((10 : Rat) ^ fp.length)
        some (if signed.1 then -q else q)
      | _, _ => none

/-- A JS parameter accepted for an `integer` column (numbers with no
fractional part, and numeric strings, as node-pg serializes parameters to
text).  Other serializations are not modelled; no theorem depends on them. -/
def toIntParam : JSValue → Option Int
  | .num q => if q.den = 1 then some q.num else none
  | .str s =>
    (match parseDec s with
     | some q => if q.den = 1 then some q.num else none
     | none => none)
  | _ => none

/-- A JS parameter accepted for a `numeric` column. -/
def toNumericParam : JSValue → Option Rat
  | .num q => some q
  | .str s => parseDec s
  | _ => none

/-- A JS parameter accepted for a text column. -/
def toTextParam : JSValue → Option String
  | .str s => some s
  | _ => none

/-- JS `null` (becomes SQL NULL). -/
def isNullV : JSValue → Bool
  | .null => true
  | _ => false

/-- The columns of the `jobs` table, as used throughout `models/job.js`. -/
def jobsColumns : List String := ["id", "title", "salary", "equity", "company_handle"]

/-- Whether a bound parameter is acceptable for a given `jobs` SET target
column (NULL allowed only for the nullable columns). -/
def fieldTypeOk (k : String) (v : JSValue) : Bool :=
  match k with
  | "id" => (toIntParam v).isSome
  | "title" => (toTextParam v).isSome
  | "salary" => isNullV v || (toIntParam v).isSome
  | "equity" => isNullV v || (toNumericParam v).isSome
  | "company_handle" => (toTextParam v).isSome
  | _ => false

/-- Apply one well-typed SET assignment to a `jobs` row. -/
def setJobField (r : JobRow) (k : String) (v : JSValue) : JobRow :=
  match k with
  | "id" =>
    (match toIntParam v with
     | some n => { r with id := n }
     | none => r)
  | "title" =>
    (match toTextParam v with
     | some s => { r with title := s }
     | none => r)
  | "salary" =>
    if isNullV v then { r with salary := none }
    else
      match toIntParam v with
      | some n => { r with salary := some n }
      | none => r
  | "equity" =>
    if isNullV v then { r with equity := none }
    else
      match toNumericParam v with
      | some q => { r with equity := some q }
      | none => r
  | "company_handle" =>
    (match toTextParam v with
     | some s => { r with companyHandle := s }
     | none => r)
  | _ => r

/-- Apply a SET assignment list left to right. -/
def applyFields (r : JobRow) : List (String × JSValue) → JobRow
  | [] => r
  | (k, v) :: rest => applyFields (setJobField r k v) rest

/-- Embedding of `Job.update` (`models/job.js`) together with the storage
engine's processing of the generated statement: `sqlForPartialUpdate` with an
empty name map (so every data key becomes a target column unchanged), then
the engine's column validation — an unknown target column is rejected as an
unclassified storage error before any row is touched — then parameter typing,
then the row update, with `NotFoundError` when no row has the given id. -/
def Job.update (jid : Int) (data : JSValue) (db : DBState) :
    Except SqlError (JobRow × DBState) :=
  match sqlForPartialUpdate data [] with
  | .error e => .error e
  | .ok _ =>
    match objectKeys data, objectValues data with
    | .ok keys, .ok vals =>
      match keys.find? (fun k => !(jobsColumns.contains k)) with
      | some badCol =>
        .error (.storage ("column \"" ++ badCol ++ "\" of relation \"jobs\" does not exist"))
      | none =>
        match (keys.zip vals).find? (fun kv => !(fieldTypeOk kv.1 kv.2)) with
        | some _ => .error (.storage "invalid parameter value for target column")
        | none =>
          match db.jobs.find? (fun j => j.id = jid) with
          | some j0 =>
            .ok (applyFields j0 (keys.zip vals),
              { db with
                jobs := db.jobs.map (fun j =>
                  if j.id = jid then applyFields j (keys.zip vals) else j) })
          | none => .error (.notFound ("No job with id: " ++ toString jid))
    | _, _ => .error (.typeError "Cannot convert undefined or null to object")

/-! ## Theorems: the partial-update compiler (claims C1, C2) -/

/-- The clause list has one clause per key. -/
lemma buildCols_length (m : List (String × String)) (ks : List String) (i : Nat) :
    (buildCols m ks i).length = ks.length := by
  induction ks generalizing i with
  | nil => rfl
  | cons k ks ih => simp [buildCols, ih]

/-- The `j`-th clause names the column chosen for the `j`-th key and the
parameter placeholder at 1-based position `i + j + 1`. -/
lemma buildCols_getD (m : List (String × String)) (ks : List String) :
    ∀ i j, j < ks.length →
      (buildCols m ks i).getD j "" =
        "\"" ++ colFor m (ks.getD j "") ++ "\"=$" ++ toString (i + j + 1) := by
  induction ks with
  | nil => intro i j h; simp at h
  | cons k ks ih =>
    intro i j h
    cases j with
    | zero => simp [buildCols]
    | succ j =>
      have hj : j < ks.length := by simpa using h
      simp only [buildCols, List.getD_cons_succ, List.getD_cons_succ]
      rw [ih (i + 1) j hj]
      have : i + 1 + j + 1 = i + (j + 1) + 1 := by omega
      rw [this]

/-- Claim C1 (amended): for a non-empty update mapping, `sqlForPartialUpdate`
returns the clauses `"col"=$N` joined by `", "`, one per key in iteration
order, with N the key's 1-based position; the column is the name map's entry
for the key when that entry is non-empty, and the key itself otherwise
(`jsToSql[colName] || colName`); and the values array holds the mapping's
values in the same order. -/
theorem sqlForPartialUpdate_clauses (fields : List (String × JSValue))
    (jsToSql : List (String × String)) (h : fields ≠ []) :
    ∃ clauses : List String,
      sqlForPartialUpdate (.obj fields) jsToSql =
        .ok ⟨String.intercalate ", " clauses, fields.map Prod.snd⟩ ∧
      clauses.length = fields.length ∧
      ∀ j, j < fields.length →
        clauses.getD j "" =
          "\"" ++ colFor jsToSql ((fields.map Prod.fst).getD j "") ++ "\"=$" ++
            toString (j + 1) := by
  refine ⟨buildCols jsToSql (fields.map Prod.fst) 0, ?_, ?_, ?_⟩
  · have hne : ¬ (fields.map Prod.fst).length = 0 := by
      simp only [List.length_map, List.length_eq_zero]
      exact h
    simp only [sqlForPartialUpdate, objectKeys, objectValues, if_neg hne]
  · rw [buildCols_length, List.length_map]
  · intro j hj
    rw [buildCols_getD jsToSql (fields.map Prod.fst) 0 j (by simpa using hj)]
    simp

/-- Witness for C1's theorem at a concrete non-empty mapping. -/
theorem sqlForPartialUpdate_clauses_witness :
    ∃ clauses : List String,
      sqlForPartialUpdate (.obj [("a", .num 1)]) [] =
        .ok ⟨String.intercalate ", " clauses, [("a", JSValue.num 1)].map Prod.snd⟩ ∧
      clauses.length = [("a", JSValue.num 1)].length ∧
      ∀ j, j < [("a", JSValue.num 1)].length →
        clauses.getD j "" =
          "\"" ++ colFor [] (([("a", JSValue.num 1)].map Prod.fst).getD j "") ++ "\"=$" ++
            toString (j + 1) :=
  sqlForPartialUpdate_clauses [("a", .num 1)] [] (by simp)

/-- Counterexample to C1 as stated: when the name map maps a key to the empty
string, the produced column is the key, not the name map's entry — the clause
is `"a"=$1`, not `""=$1`. -/
theorem sqlForPartialUpdate_emptyEntry_counterexample :
    sqlForPartialUpdate (.obj [("a", .num 1)]) [("a", "")] =
      .ok ⟨"\"a\"=$1", [.num 1]⟩ ∧ ("\"a\"=$1" : String) ≠ "\"\"=$1" :=
  ⟨rfl, by decide⟩

/-- Claim C2 (amended): an empty update mapping — and a boolean, a number or
the empty string passed in place of the mapping — is rejected with the
BadRequest error `"No data"`; `null` and `undefined` instead raise a raw
TypeError before the key check can run. -/
theorem sqlForPartialUpdate_empty_badRequest (m : List (String × String)) (b : Bool) (q : Rat) :
    sqlForPartialUpdate (.obj []) m = .error (.badRequest "No data") ∧
    sqlForPartialUpdate (.bool b) m = .error (.badRequest "No data") ∧
    sqlForPartialUpdate (.num q) m = .error (.badRequest "No data") ∧
    sqlForPartialUpdate (.str "") m = .error (.badRequest "No data") ∧
    sqlForPartialUpdate .null m =
      .error (.typeError "Cannot convert undefined or null to object") ∧
    sqlForPartialUpdate .undef m =
      .error (.typeError "Cannot convert undefined or null to object") :=
  ⟨rfl, rfl, rfl, rfl, rfl, rfl⟩

/-- An `Except` result is an error. -/
def isErr {α : Type} : Except SqlError α → Bool
  | .error _ => true
  | .ok _ => false

/-- The `setCols` of a successful compile (`""` on error). -/
def setColsOf : Except SqlError SqlUpdate → String
  | .ok u => u.setCols
  | .error _ => ""

/-- Counterexample to C2 as stated: a non-empty string is a non-object, yet
`sqlForPartialUpdate` does not throw at all — `Object.keys("ab")` is
`["0","1"]`, so it succeeds with per-character clauses. -/
theorem sqlForPartialUpdate_nonObject_counterexample :
    isErr (sqlForPartialUpdate (.str "ab") []) = false ∧
    setColsOf (sqlForPartialUpdate (.str "ab") []) = "\"0\"=$1, \"1\"=$2" :=
  ⟨rfl, rfl⟩

/-! ## Theorems: Company repository (claims C3, C4, C5) -/

/-- A filter retains nothing when `any` is false. -/
lemma filter_eq_nil_of_any_eq_false {α : Type} (p : α → Bool) (l : List α)
    (h : l.any p = false) : l.filter p = [] := by
  induction l with
  | nil => rfl
  | cons a l ih =>
    simp only [List.any_cons, Bool.or_eq_false_iff] at h
    simp [List.filter_cons, h.1, ih h.2]

/-- A company with two jobs, for evaluating `Company.get`. -/
def exCompany3 : CompanyRow := ⟨"c1", "C1 Inc", "Desc1", some 10, some "http://c1.img"⟩

/-- Database with one company owning two jobs. -/
def exDb3 : DBState :=
  ⟨[exCompany3], [⟨1, "j1", some 100, some 1, "c1"⟩, ⟨2, "j2", none, none, "c1"⟩], 3⟩

/-- Claim C3 (evaluation at the failing input): for an unknown handle
`Company.get` throws NotFound as claimed, but for a known handle it returns
the raw LEFT JOIN row list — one row per job, the company's columns repeated
in each and no `jobs` array — instead of the single company record merged
with its jobs that the method's own documentation promises. -/
theorem company_get_returns_join_rows :
    Company.get "c1" exDb3 =
      .ok [⟨"c1", "C1 Inc", "Desc1", some 10, some "http://c1.img",
              some 1, some "j1", some 100, some 1⟩,
           ⟨"c1", "C1 Inc", "Desc1", some 10, some "http://c1.img",
              some 2, some "j2", none, none⟩] ∧
    Company.get "nope" exDb3 = .error (.notFound "No company: nope") :=
  ⟨rfl, rfl⟩

/-- Claim C4: creating a company whose handle is unused (and, per the data
model's foreign-key invariant, unreferenced by any job) and then fetching by
that handle succeeds and returns exactly the created field values (the join
columns NULL, as the fresh company has no jobs). -/
theorem company_create_get_roundTrip (f : CompanyRow) (db : DBState)
    (h1 : db.companies.any (fun c => c.handle = f.handle) = false)
    (h2 : db.jobs.any (fun j => j.companyHandle = f.handle) = false) :
    ∃ db' : DBState,
      Company.create f db = .ok (f, db') ∧
      Company.get f.handle db' =
        .ok [⟨f.handle, f.name, f.description, f.numEmployees, f.logoUrl,
              none, none, none, none⟩] := by
  refine ⟨{ db with companies := db.companies ++ [f] }, ?_, ?_⟩
  · simp [Company.create, h1]
  · have hany : (db.companies ++ [f]).any (fun c => c.handle = f.handle) = true := by
      simp [List.any_append]
    have hfil : (db.companies ++ [f]).filter (fun c => c.handle = f.handle) = [f] := by
      rw [List.filter_append, filter_eq_nil_of_any_eq_false _ _ h1]
      simp
    have hjobs : db.jobs.filter (fun j => j.companyHandle = f.handle) = [] :=
      filter_eq_nil_of_any_eq_false _ _ h2
    simp only [Company.get, hany, if_true, hfil]
    simp [companyJobRows, hjobs]

/-- Empty database for the C4 witness. -/
def exDb4 : DBState := ⟨[], [], 1⟩

/-- Witness for C4's theorem at a concrete company and empty database. -/
theorem company_create_get_roundTrip_witness :
    ∃ db' : DBState,
      Company.create ⟨"cw", "W Co", "w", some 3, none⟩ exDb4 =
        .ok (⟨"cw", "W Co", "w", some 3, none⟩, db') ∧
      Company.get "cw" db' =
        .ok [⟨"cw", "W Co", "w", some 3, none, none, none, none, none⟩] :=
  company_create_get_roundTrip ⟨"cw", "W Co", "w", some 3, none⟩ exDb4 rfl rfl

/-- Claim C5 (amended): `Company.filterBy` throws BadRequest exactly when the
effective bounds cross — the supplied `minEmployees` (0 when absent or zero)
against the supplied `maxEmployees` (10000000 when absent or zero); a
supplied `maxEmployees` of 0 is falsy and therefore replaced before the
check. -/
theorem company_filterBy_minGtMax (term : CompanyTerm) (db : DBState)
    (h : effMinEmployees term > effMaxEmployees term) :
    Company.filterBy term db =
      .error (.badRequest "Min employees cannot be greater than max employees.") := by
  simp [Company.filterBy, h]

/-- One-company database for the C5 theorems. -/
def exDb5 : DBState := ⟨[⟨"ac", "ACo", "d", some 3, none⟩], [], 1⟩

/-- Witness for C5's amended theorem at crossing bounds 5 > 2. -/
theorem company_filterBy_minGtMax_witness :
    Company.filterBy ⟨none, some 5, some 2⟩ exDb5 =
      .error (.badRequest "Min employees cannot be greater than max employees.") :=
  company_filterBy_minGtMax ⟨none, some 5, some 2⟩ exDb5 (by decide)

/-- Counterexample to C5 as stated: with `minEmployees = 5 > maxEmployees = 0`
the call does not throw — 0 is falsy, becomes 10000000, and the query runs. -/
theorem company_filterBy_maxZero_counterexample :
    Company.filterBy ⟨none, some 5, some 0⟩ exDb5 = .ok [] ∧ (5 : Int) > 0 :=
  ⟨rfl, by decide⟩

/-! ## Theorems: Job.create, Job.update, Job.filterBy NULL salary (C6, C8, C9) -/

/-- Claim C6: `Job.create` throws BadRequest when `companyHandle` references
no existing company; otherwise it appends the job row and returns the stored
record's title, salary, equity and companyHandle — a record shape with no id
field. -/
theorem job_create_spec (f : JobData) (db : DBState) :
    (db.companies.any (fun c => c.handle = f.companyHandle) = false →
      Job.create f db =
        .error (.badRequest ("Company does not exist: " ++ f.companyHandle))) ∧
    (db.companies.any (fun c => c.handle = f.companyHandle) = true →
      ∃ db' : DBState,
        Job.create f db = .ok (⟨f.title, f.salary, f.equity, f.companyHandle⟩, db') ∧
        db'.jobs = db.jobs ++
          [⟨db.nextJobId, f.title, f.salary, f.equity, f.companyHandle⟩]) := by
  constructor
  · intro h
    simp [Job.create, h]
  · intro h
    refine ⟨{ db with
        jobs := db.jobs ++ [⟨db.nextJobId, f.title, f.salary, f.equity, f.companyHandle⟩],
        nextJobId := db.nextJobId + 1 }, ?_, rfl⟩
    simp [Job.create, h]

/-- One-company database for the C6 witness. -/
def exDb6 : DBState := ⟨[⟨"c1", "CC", "d", none, none⟩], [], 5⟩

/-- Witness for C6's theorem: a missing handle is rejected, an existing one
inserts and returns the id-less record. -/
theorem job_create_spec_witness :
    Job.create ⟨"t", some 100, some 1, "nope"⟩ exDb6 =
      .error (.badRequest "Company does not exist: nope") ∧
    ∃ db' : DBState,
      Job.create ⟨"t", some 100, some 1, "c1"⟩ exDb6 =
        .ok (⟨"t", some 100, some 1, "c1"⟩, db') ∧
      db'.jobs = exDb6.jobs ++ [⟨5, "t", some 100, some 1, "c1"⟩] :=
  ⟨(job_create_spec ⟨"t", some 100, some 1, "nope"⟩ exDb6).1 rfl,
   (job_create_spec ⟨"t", some 100, some 1, "c1"⟩ exDb6).2 rfl⟩

/-- Claim C8: an update mapping containing a `companyHandle` key is not
filtered out — the key becomes a SET target column verbatim, `jobs` has no
such column (its column is `company_handle`), and the storage layer rejects
the statement as an unclassified storage error, not BadRequest or NotFound,
even though the job id exists. -/
theorem job_update_companyHandle_storage (jid : Int) (fields : List (String × JSValue))
    (db : DBState)
    (h1 : db.jobs.any (fun j => j.id = jid) = true)
    (h2 : "companyHandle" ∈ fields.map Prod.fst) :
    ∃ m : String, Job.update jid (.obj fields) db = .error (.storage m) := by
  have hne : ¬ (fields.map Prod.fst).length = 0 := by
    cases fields with
    | nil => simp at h2
    | cons a l => simp
  simp only [Job.update, sqlForPartialUpdate, objectKeys, objectValues, if_neg hne]
  cases hfind : (fields.map Prod.fst).find? (fun k => !(jobsColumns.contains k)) with
  | none =>
    exfalso
    rw [List.find?_eq_none] at hfind
    exact hfind "companyHandle" h2 (by decide)
  | some bad =>
    exact ⟨_, rfl⟩

/-- Database with one job, for the C8 witness. -/
def exDb8 : DBState := ⟨[⟨"c1", "CC", "d", none, none⟩], [⟨1, "t", some 1, none, "c1"⟩], 2⟩

/-- Witness for C8's theorem at an existing job id and a one-key mapping. -/
theorem job_update_companyHandle_storage_witness :
    ∃ m : String,
      Job.update 1 (.obj [("companyHandle", .str "c2")]) exDb8 = .error (.storage m) :=
  job_update_companyHandle_storage 1 [("companyHandle", .str "c2")] exDb8
    (by decide) (by decide)

/-- A row passing `salary >= m` cannot have NULL salary. -/
lemma salaryAtLeast_ne_none {s : Option Int} {m : Int}
    (h : salaryAtLeast s m = true) : s ≠ none := by
  cases s with
  | none => simp [salaryAtLeast] at h
  | some v => exact fun hc => Option.noConfusion hc

/-- Claim C9: every one of `Job.filterBy`'s four query shapes conjoins
`salary >= minSalary`, which NULL never satisfies, so no returned job has a
NULL salary — for any criteria, including the empty one. -/
theorem job_filterBy_salary_not_null (term : JobTerm) (db : DBState) (j : JobRow)
    (h : j ∈ Job.filterBy term db) : j.salary ≠ none := by
  unfold Job.filterBy at h
  split at h <;> (try split at h) <;> (try split at h) <;>
  · rw [List.mem_filter] at h
    rcases h with ⟨-, hp⟩
    have hs : salaryAtLeast j.salary (effMinSalary term) = true := by
      try simp only [Bool.and_eq_true] at hp
      tauto
    exact salaryAtLeast_ne_none hs

/-- Database with one job, for the C9 witness. -/
def exDb9 : DBState := ⟨[⟨"c1", "C", "d", none, none⟩], [⟨1, "a", some 5, none, "c1"⟩], 2⟩

/-- Witness for C9's theorem: a job actually returned by an empty-criteria
`Job.filterBy` call has a non-NULL salary. -/
theorem job_filterBy_salary_not_null_witness :
    (⟨1, "a", some 5, none, "c1"⟩ : JobRow).salary ≠ none :=
  job_filterBy_salary_not_null ⟨none, none, none⟩ exDb9
    ⟨1, "a", some 5, none, "c1"⟩ (by decide)

/-! ## Theorems: Job.filterBy semantics (claim C7) -/

/-- An empty pattern list never matches a non-empty text. -/
lemma likeAux_nil_cons (g : Nat) (c : Char) (cs : List Char) :
    likeAux g [] (c :: cs) = false := by
  cases g <;> rfl

/-- A single `%` matches any text, given enough fuel. -/
lemma likeAux_onePct : ∀ (cs : List Char) (f : Nat), cs.length + 2 ≤ f →
    likeAux f ['%'] cs = true := by
  intro cs
  induction cs with
  | nil =>
    intro f hf
    obtain ⟨g, rfl⟩ : ∃ g, f = g + 2 := ⟨f - 2, by omega⟩
    rfl
  | cons c cs ih =>
    intro f hf
    obtain ⟨g, rfl⟩ : ∃ g, f = g + 1 := ⟨f - 1, by omega⟩
    have h1 : likeAux g ['%'] cs = true := ih g (by simp at hf ⊢; omega)
    simp [likeAux, likeAux_nil_cons, h1]

/-- The pattern `%%` matches any text, given enough fuel. -/
lemma likeAux_twoPct : ∀ (cs : List Char) (f : Nat), cs.length + 3 ≤ f →
    likeAux f ['%', '%'] cs = true := by
  intro cs
  induction cs with
  | nil =>
    intro f hf
    obtain ⟨g, rfl⟩ : ∃ g, f = g + 1 := ⟨f - 1, by omega⟩
    have h1 : likeAux g ['%'] [] = true := likeAux_onePct [] g (by omega)
    simp [likeAux, h1]
  | cons c cs ih =>
    intro f hf
    obtain ⟨g, rfl⟩ : ∃ g, f = g + 1 := ⟨f - 1, by omega⟩
    have h1 : likeAux g ['%'] (c :: cs) = true :=
      likeAux_onePct (c :: cs) g (by simp at hf ⊢; omega)
    simp [likeAux, h1]

/-- `ILIKE '%%'` (the pattern built from an empty title) matches every text. -/
lemma ilike_allPct (s : String) : ilike "%%" s = true := by
  unfold ilike
  have hdata : lowerData "%%" = ['%', '%'] := rfl
  rw [hdata]
  apply likeAux_twoPct
  have h2 : (['%', '%'] : List Char).length = 2 := rfl
  omega

/-- The per-job filtering predicate `Job.filterBy` implements, stated as one
conjunction: `salary >= minSalary` (0 when absent or zero), `equity > 0`
exactly when `hasEquity` is `true`, and an ILIKE match of the title against
`'%' + title + '%'` when a title is supplied. -/
def jobMatchesCriteria (term : JobTerm) (j : JobRow) : Bool :=
  salaryAtLeast j.salary (effMinSalary term) &&
  (match term.hasEquity with
   | some true => equityPos j.equity
   | _ => true) &&
  (match term.title with
   | none => true
   | some t => ilike ("%" ++ t ++ "%") j.title)

/-- Claim C7 (amended): for every criteria object, `Job.filterBy` returns
exactly the jobs with salary at least `minSalary` (default 0), equity
strictly positive when `hasEquity` is true (no restriction otherwise), and
title matched against `'%' + title + '%'` under case-insensitive SQL LIKE
semantics (so `%` and `_` in the supplied title are wildcards, not literal
substring characters); the four query shapes collapse to this one
predicate. -/
theorem job_filterBy_matches (term : JobTerm) (db : DBState) :
    Job.filterBy term db = db.jobs.filter (fun j => jobMatchesCriteria term j) := by
  obtain ⟨t, m, e⟩ := term
  rcases t with _ | t
  · rcases e with _ | (_ | _) <;>
      simp [Job.filterBy, jobMatchesCriteria, truthyTitle, hasEquityFlag,
        Bool.and_comm, Bool.and_left_comm, Bool.and_assoc]
  · by_cases ht : t = ""
    · subst ht
      rcases e with _ | (_ | _) <;>
        simp [Job.filterBy, jobMatchesCriteria, truthyTitle, hasEquityFlag,
          ilike_allPct, Bool.and_comm, Bool.and_left_comm, Bool.and_assoc]
    · rcases e with _ | (_ | _) <;>
        simp [Job.filterBy, jobMatchesCriteria, truthyTitle, hasEquityFlag,
          titlePattern, ht, Bool.and_comm, Bool.and_left_comm, Bool.and_assoc]

/-- Database with a job titled `abc`, for the C7 counterexample. -/
def exDb7 : DBState := ⟨[⟨"c1", "C", "d", none, none⟩], [⟨1, "abc", some 1000, none, "c1"⟩], 2⟩

/-- Counterexample to C7 as stated: filtering by title `a_c` returns the job
titled `abc` — `_` is an ILIKE single-character wildcard — although `abc`
does not contain the substring `a_c` case-insensitively. -/
theorem job_filterBy_wildcard_counterexample :
    Job.filterBy ⟨some "a_c", none, none⟩ exDb7 = [⟨1, "abc", some 1000, none, "c1"⟩] ∧
    strContainsCI "abc" "a_c" = false :=
  ⟨rfl, rfl⟩

/-! ## Theorems: Company.filterBy's maxEmployees default (claim C10) -/

/-- A falsy `maxEmployees` (absent or zero) yields the fixed bound. -/
lemma effMax_of_falsy (term : CompanyTerm) (h : truthyNum term.maxEmployees = false) :
    effMaxEmployees term = 10000000 := by
  unfold effMaxEmployees
  cases hm : term.maxEmployees with
  | none => rfl
  | some n =>
    rw [hm] at h
    simp only [truthyNum, decide_eq_false_iff_not, not_not] at h
    simp [h]

/-- Claim C10 (amended): when `maxEmployees` is absent or falsy the fixed
bound 10000000 is substituted, so every query shape that constrains the
employee count — that is, unless name is truthy while `minEmployees` is falsy,
which selects the name-only shape with no employee condition at all — returns
no company with more than 10000000 employees; and a supplied `maxEmployees`
of 0 makes `Company.filterBy` behave exactly as if the bound were absent,
rather than restricting to zero-employee companies. -/
theorem company_filterBy_maxDefault (term : CompanyTerm) (db : DBState) :
    (∀ (out : List CompanyRow) (c : CompanyRow) (e : Int),
      truthyNum term.maxEmployees = false →
      (truthyStr term.name = true → truthyNum term.minEmployees = true) →
      Company.filterBy term db = .ok out → c ∈ out → c.numEmployees = some e →
      e ≤ 10000000) ∧
    Company.filterBy { term with maxEmployees := some 0 } db =
      Company.filterBy { term with maxEmployees := none } db := by
  constructor
  · intro out c e hmax hshape hout hc hce
    have hM : effMaxEmployees term = 10000000 := effMax_of_falsy term hmax
    unfold Company.filterBy at hout
    split at hout
    · simp at hout
    · split at hout
      · simp only [Except.ok.injEq] at hout
        subst hout
        rw [List.mem_filter] at hc
        have hbet : betweenE c.numEmployees (effMinEmployees term)
            (effMaxEmployees term) = true := by
          have hp := hc.2
          simp only [Bool.and_eq_true] at hp
          tauto
        rw [hce, hM] at hbet
        simp only [betweenE, Bool.and_eq_true, decide_eq_true_eq] at hbet
        exact hbet.2
      · split at hout
        · rename_i hnc1 hname
          have hmin := hshape hname
          exact absurd (by simp [hname, hmin]) hnc1
        · simp only [Except.ok.injEq] at hout
          subst hout
          rw [List.mem_filter] at hc
          have hbet : betweenE c.numEmployees (effMinEmployees term)
              (effMaxEmployees term) = true := hc.2
          rw [hce, hM] at hbet
          simp only [betweenE, Bool.and_eq_true, decide_eq_true_eq] at hbet
          exact hbet.2
  · have e1 : effMaxEmployees { term with maxEmployees := some 0 } = 10000000 := rfl
    have e2 : effMaxEmployees { term with maxEmployees := none } = 10000000 := rfl
    have t1 : truthyNum ({ term with maxEmployees := some 0 }).maxEmployees = false := rfl
    have t2 : truthyNum ({ term with maxEmployees := none }).maxEmployees = false := rfl
    have e3 : effMinEmployees { term with maxEmployees := some 0 } = effMinEmployees term := rfl
    have e4 : effMinEmployees { term with maxEmployees := none } = effMinEmployees term := rfl
    have e5 : namePattern { term with maxEmployees := some 0 } = namePattern term := rfl
    have e6 : namePattern { term with maxEmployees := none } = namePattern term := rfl
    have e7 : truthyStr ({ term with maxEmployees := some 0 }).name = truthyStr term.name := rfl
    have e8 : truthyStr ({ term with maxEmployees := none }).name = truthyStr term.name := rfl
    have e9 : truthyNum ({ term with maxEmployees := some 0 }).minEmployees =
      truthyNum term.minEmployees := rfl
    have e10 : truthyNum ({ term with maxEmployees := none }).minEmployees =
      truthyNum term.minEmployees := rfl
    simp only [Company.filterBy, e1, e2, t1, t2, e3, e4, e5, e6, e7, e8, e9, e10]

/-- One-company database for the C10 witness. -/
def exDb10 : DBState := ⟨[⟨"b", "BCo", "d", some 5, none⟩], [], 1⟩

/-- Witness for C10's theorem: a company actually returned with falsy
`maxEmployees` respects the substituted bound, and `maxEmployees = 0` gives
the same result as an absent bound. -/
theorem company_filterBy_maxDefault_witness :
    (5 : Int) ≤ 10000000 ∧
    Company.filterBy ⟨none, none, some 0⟩ exDb10 =
      Company.filterBy ⟨none, none, none⟩ exDb10 :=
  ⟨(company_filterBy_maxDefault ⟨none, none, some 0⟩ exDb10).1
      [⟨"b", "BCo", "d", some 5, none⟩] ⟨"b", "BCo", "d", some 5, none⟩ 5
      (by decide) (by decide) rfl (by simp) rfl,
   (company_filterBy_maxDefault ⟨none, none, none⟩ exDb10).2⟩

/-- Database with a company of 20000000 employees, for the C10 counterexample. -/
def exDbBig : DBState := ⟨[⟨"big", "bigco", "d", some 20000000, none⟩], [], 1⟩

/-- Counterexample to C10 as stated: with `maxEmployees` absent but a name
supplied (and `minEmployees` falsy), the name-only query shape applies no
employee bound, and a company with 20000000 > 10000000 employees is
returned. -/
theorem company_filterBy_nameOnly_unbounded_counterexample :
    Company.filterBy ⟨some "big", none, none⟩ exDbBig =
      .ok [⟨"big", "bigco", "d", some 20000000, none⟩] ∧
    (20000000 : Int) > 10000000 :=
  ⟨rfl, by decide⟩
